import Mathlib

/-!
Verification development for the book-age pipeline (src/app.py).

The pipeline is embedded shallowly:
  * titles and date fields are `Option String` (Python `None`/NaN is `none`;
    non-string scalars pass through `str` in the source and arrive as strings);
  * the regex searches of `is_kara_pattern`, `extract_age` and `extract_decade`
    are embedded as explicit leftmost-match scans over `List Char`;
  * the pandas aggregation of `aggregate_statistics` is embedded as pure list
    processing with rational arithmetic for mean/median;
  * the Gemini prompt construction is embedded as a total string template and
    the generation call as an oracle `Nat → Except String String`.
-/

/-- A character the Python regex `\d` accepts in the inputs of this domain:
ASCII digits and full-width digits (the source comments show both forms,
e.g. "13歳からの" and "１３歳からの"). -/
def isDigitChar (c : Char) : Bool :=
  ('0' ≤ c && c ≤ '9') || ('０' ≤ c && c ≤ '９')

/-- Numeric value of a digit character, as Python `int` reads it. -/
def digitVal (c : Char) : Nat :=
  if '0' ≤ c && c ≤ '9' then c.toNat - '0'.toNat
  else if '０' ≤ c && c ≤ '９' then c.toNat - '０'.toNat
  else 0

/-- Python `int` on a nonempty string of decimal digits. -/
def digitsToNat (cs : List Char) : Nat :=
  cs.foldl (fun n c => n * 10 + digitVal c) 0

/-- The character class of the kanji-numeral alternative of the source
patterns: `[一二三四五六七八九十百]`. -/
def kanjiNumChars : List Char := "一二三四五六七八九十百".data

def isKanjiNumChar (c : Char) : Bool := kanjiNumChars.contains c

/-- Value of a kanji digit character (1–9); `none` for place-value words. -/
def kanjiDigit : Char → Option Nat
  | '一' => some 1
  | '二' => some 2
  | '三' => some 3
  | '四' => some 4
  | '五' => some 5
  | '六' => some 6
  | '七' => some 7
  | '八' => some 8
  | '九' => some 9
  | _ => none

/-- One optional place-value group `[digit?] place` of the numeral grammar.
Returns the value contributed, whether anything was consumed, and the rest. -/
def partPlace (place : Char) (base : Nat) : List Char → Nat × Bool × List Char
  | [] => (0, false, [])
  | c :: rest =>
    if c = place then (base, true, rest)
    else
      match kanjiDigit c, rest with
      | some d, p :: rest2 =>
        if p = place then (d * base, true, rest2) else (0, false, c :: rest)
      | _, _ => (0, false, c :: rest)

/-- The optional trailing units digit of the numeral grammar. -/
def partUnit : List Char → Nat × Bool × List Char
  | [] => (0, false, [])
  | c :: rest =>
    match kanjiDigit c with
    | some d => (d, true, rest)
    | none => (0, false, c :: rest)

/-- Modelled from the spec: the NumeralParser (realized in the source by the
external `kanjize.kanji2number`, whose code is not under src/). Digits 1–9
combine with the place values ten (十) and hundred (百): a digit immediately
before a place multiplies it, a place with no preceding digit counts once, and
groups are summed (hundreds, then tens, then units). Malformed or empty text —
anything not of that grammar, such as 十十 — fails; the failure is the
`ParseError` that `extract_age` catches and turns into `none`. -/
def kanji2number? (cs : List Char) : Option Nat :=
  let h := partPlace '百' 100 cs
  let t := partPlace '十' 10 h.2.2
  let u := partUnit t.2.2
  if u.2.2 = [] && (h.2.1 || t.2.1 || u.2.1) then some (h.1 + t.1 + u.1)
  else none

/-- `startsWithList pat cs` holds when `pat` is an initial segment of `cs`. -/
def startsWithList : List Char → List Char → Bool
  | [], _ => true
  | _ :: _, [] => false
  | p :: ps, c :: cs => p = c && startsWithList ps cs

/-- Leftmost match of the regex `tok+ marker` (with `marker` free of `tok`
characters, as in the source patterns, greedy `tok+` can match only the
maximal run at each start position): returns the matched run of the first
position whose maximal `tok` run is followed by `marker`. -/
def findTokenRun (isTok : Char → Bool) (marker : List Char) :
    List Char → Option (List Char)
  | [] => none
  | c :: cs =>
    if isTok c then
      if startsWithList marker ((c :: cs).dropWhile isTok) then
        some ((c :: cs).takeWhile isTok)
      else findTokenRun isTok marker cs
    else findTokenRun isTok marker cs

/-- The fixed marker of the age-prefix pattern. -/
def karaMarker : List Char := "歳からの".data

/-- src/app.py `is_kara_pattern`: true when the title contains
`\d+歳からの` or `[一二三四五六七八九十百]+歳からの`. `None`/NaN and the
empty string are rejected by the leading falsiness test. -/
def is_kara_pattern (title : Option String) : Bool :=
  match title with
  | none => false
  | some t =>
    if t.data = [] then false
    else
      (findTokenRun isDigitChar karaMarker t.data).isSome
        || (findTokenRun isKanjiNumChar karaMarker t.data).isSome

/-- src/app.py `extract_age`: the digit form `(\d+)歳からの` is tried first
and its first match parsed with `int`; otherwise the kanji form is tried and
its first match parsed with the numeral parser, whose failure is caught and
becomes `none`. -/
def extract_age (title : Option String) : Option Nat :=
  match title with
  | none => none
  | some t =>
    if t.data = [] then none
    else
      match findTokenRun isDigitChar karaMarker t.data with
      | some run => some (digitsToNat run)
      | none =>
        match findTokenRun isKanjiNumChar karaMarker t.data with
        | some run => kanji2number? run
        | none => none

/-- Leftmost match of `(\d{4})`: the first window of four consecutive digit
characters (at each start position the window is the next four characters; a
shorter tail cannot match). -/
def findFourDigitRun : List Char → Option (List Char)
  | [] => none
  | c :: cs =>
    if ((c :: cs).take 4).length = 4 && ((c :: cs).take 4).all isDigitChar then
      some ((c :: cs).take 4)
    else findFourDigitRun cs

/-- src/app.py `extract_decade`: first 4-digit run read as a year, bucketed to
`(year // 10) * 10` and rendered with the 年代 suffix; `none` when the field
is absent, falsy, or has no 4-digit run. -/
def extract_decade (publish_date : Option String) : Option String :=
  match publish_date with
  | none => none
  | some s =>
    if s.data = [] then none
    else
      match findFourDigitRun s.data with
      | some run => some (toString (digitsToNat run / 10 * 10) ++ "年代")
      | none => none

/-- The discrepancy case of the two title operations: no digit-form match,
but the kanji-form pattern matches with a run the numeral parser rejects
(`is_kara_pattern` is then true while `extract_age` is absent). -/
def kanji_match_unparsable (title : Option String) : Bool :=
  match title with
  | none => false
  | some t =>
    if t.data = [] then false
    else
      match findTokenRun isDigitChar karaMarker t.data with
      | some _ => false
      | none =>
        match findTokenRun isKanjiNumChar karaMarker t.data with
        | some run => (kanji2number? run).isNone
        | none => false

/-- A raw spreadsheet row, restricted to the fields the pipeline reads. -/
structure Record where
  title : Option String
  publishDate : Option String
deriving DecidableEq

/-- A record together with the derived 対象年齢 column. -/
structure EnrichedRecord where
  row : Record
  target_age : Option Nat
deriving DecidableEq

/-- src/app.py main filtering block: keep the rows whose title satisfies
`is_kara_pattern` (line 275), attach `対象年齢 = extract_age(title)`
(line 277), and keep only rows with a non-null age — the `notna` guard every
consumer applies before using the data (lines 303 and 410). -/
def filter_and_enrich (rows : List Record) : List EnrichedRecord :=
  (((rows.filter fun r => is_kara_pattern r.title).map
      fun r => EnrichedRecord.mk r (extract_age r.title)).filter
    fun e => e.target_age.isSome)

section Counting

variable {α : Type} [DecidableEq α]

/-- Distinct values not yet in `seen`, in order of first occurrence. -/
def uniquesAux (seen : List α) : List α → List α
  | [] => []
  | x :: xs =>
    if x ∈ seen then uniquesAux seen xs else x :: uniquesAux (x :: seen) xs

/-- The keys of a pandas value-counts hash table: the distinct values of the
list in order of first occurrence. -/
def uniquesInOrder (l : List α) : List α := uniquesAux [] l

/-- First-seen values paired with their occurrence counts. -/
def valueCountPairs (l : List α) : List (α × Nat) :=
  (uniquesInOrder l).map fun a => (a, l.count a)

/-- Insert into a count-descending list, after every entry of greater or
equal count: the stable position for an entry that occurred later. -/
def insertCountDesc (x : α × Nat) : List (α × Nat) → List (α × Nat)
  | [] => [x]
  | y :: ys => if y.2 ≤ x.2 then x :: y :: ys else y :: insertCountDesc x ys

/-- Stable insertion sort by count, descending. -/
def sortCountDesc : List (α × Nat) → List (α × Nat)
  | [] => []
  | x :: xs => insertCountDesc x (sortCountDesc xs)

/-- pandas `value_counts(...).sort_values(ascending=False)` as used by the
source: occurrence counts of the distinct values, sorted by count descending;
ties keep the first-occurrence order (stable sort over the first-seen keys). -/
def value_counts (l : List α) : List (α × Nat) :=
  sortCountDesc (valueCountPairs l)

/-- Index of the first occurrence of a value in a list (length of the list
when the value is absent); the batch's natural encounter order. -/
def firstIdx : List α → α → Nat
  | [], _ => 0
  | x :: xs, a => if x = a then 0 else firstIdx xs a + 1

end Counting

/-- Ascending insertion of a value into a sorted list of ages. -/
def insertAsc (x : Nat) : List Nat → List Nat
  | [] => [x]
  | y :: ys => if x ≤ y then x :: y :: ys else y :: insertAsc x ys

/-- Ascending insertion sort of ages. -/
def sortAsc : List Nat → List Nat
  | [] => []
  | x :: xs => insertAsc x (sortAsc xs)

/-- pandas `Series.median` over integers: middle element of the sorted values,
or the mean of the two middle elements for an even count. -/
def medianQ (l : List Nat) : ℚ :=
  let s := sortAsc l
  let n := s.length
  if n % 2 = 1 then ((s.getD (n / 2) 0 : Nat) : ℚ)
  else (((s.getD (n / 2 - 1) 0 : Nat) : ℚ) + ((s.getD (n / 2) 0 : Nat) : ℚ)) / 2

/-- The statistics dictionary built by src/app.py `aggregate_statistics`.
`peak` holds the ピーク年齢 / ピーク年齢の書籍数 pair, present exactly when
the pair of keys is set; `decade_counts` is present exactly when the 年代
column exists. -/
structure Stats where
  total_count : Nat
  mean_age : ℚ
  min_age : Nat
  max_age : Nat
  median_age : ℚ
  top_ages : List (Nat × Nat)
  peak : Option (Nat × Nat)
  decade_counts : Option (List (String × Nat))
  age_band_counts : List (String × Nat)
deriving DecidableEq

/-- src/app.py `aggregate_statistics`. `col` is the 対象年齢 column (`none`
is NaN); `decadeCol` is the 年代 column when present. Mean and median are
modelled in ℚ (the source computes them in floating point). -/
def aggregate_statistics (col : List (Option Nat))
    (decadeCol : Option (List (Option String))) : Stats :=
  let valid_ages := col.filterMap id
  let n := valid_ages.length
  let age_counts := value_counts valid_ages
  { total_count := col.length
    mean_age := if n > 0 then (valid_ages.sum : ℚ) / (n : ℚ) else 0
    min_age := if n > 0 then (sortAsc valid_ages).headD 0 else 0
    max_age := if n > 0 then (sortAsc valid_ages).getLastD 0 else 0
    median_age := if n > 0 then medianQ valid_ages else 0
    top_ages := age_counts.take 10
    peak := age_counts.head?
    decade_counts := decadeCol.map fun dc => value_counts (dc.filterMap id)
    age_band_counts := [
      ("0-9歳", valid_ages.countP fun a => decide (0 ≤ a) && decide (a < 10)),
      ("10-19歳", valid_ages.countP fun a => decide (10 ≤ a) && decide (a < 20)),
      ("20-29歳", valid_ages.countP fun a => decide (20 ≤ a) && decide (a < 30)),
      ("30-39歳", valid_ages.countP fun a => decide (30 ≤ a) && decide (a < 40)),
      ("40-49歳", valid_ages.countP fun a => decide (40 ≤ a) && decide (a < 50)),
      ("50-59歳", valid_ages.countP fun a => decide (50 ≤ a) && decide (a < 60)),
      ("60-69歳", valid_ages.countP fun a => decide (60 ≤ a) && decide (a < 70)),
      ("70-79歳", valid_ages.countP fun a => decide (70 ≤ a) && decide (a < 80)),
      ("80-89歳", valid_ages.countP fun a => decide (80 ≤ a) && decide (a < 90)),
      ("90歳以上", valid_ages.countP fun a => decide (90 ≤ a))] }

/-- Python `f"{x:.1f}"` on the nonnegative statistics values of this pipeline:
one decimal digit, rounding modelled as round-half-up on the exact rational
(the source rounds the nearest binary double, which agrees except on ties). -/
def fmt1 (q : ℚ) : String :=
  let scaled : Int := (20 * q.num + (q.den : Int)) / (2 * (q.den : Int))
  toString (scaled / 10) ++ "." ++ toString ((scaled % 10).natAbs)

/-- Python `chr(10).join` over rendered lines. -/
def joinNL : List String → String
  | [] => ""
  | [s] => s
  | s :: rest => s ++ "\n" ++ joinNL rest

/-- One 年齢別書籍数 line: `f"- {age}歳: {count}冊"`. -/
def ageLine (p : Nat × Nat) : String :=
  "- " ++ toString p.1 ++ "歳: " ++ toString p.2 ++ "冊"

/-- One 年齢帯別書籍数 or 年代別書籍数 line: `f"- {key}: {count}冊"`. -/
def pairLine (p : String × Nat) : String :=
  "- " ++ p.1 ++ ": " ++ toString p.2 ++ "冊"

/-- The ピーク年齢 line of the prompt: a missing peak renders the age as the
string fallback `N/A` and the count as `0`. -/
def peakLine (peak : Option (Nat × Nat)) : String :=
  "- ピーク年齢: " ++ (match peak with | some p => toString p.1 | none => "N/A")
    ++ "歳（書籍数: " ++ toString ((peak.map Prod.snd).getD 0) ++ "冊）"

/-- The 年代別書籍数 block: joined lines when the mapping is present and
nonempty, the データなし text when it is missing or empty (Python truthiness
of `stats.get('年代別書籍数')`). -/
def decadeSection (dc : Option (List (String × Nat))) : String :=
  match dc with
  | some (p :: ps) => joinNL ((p :: ps).map pairLine)
  | _ => "データなし"

/-- The style instruction table of src/app.py lines 168-174. -/
def style_instructions : List (String × String) := [
  ("標準的", "客観的で読みやすい標準的な文体で書いてください。"),
  ("評論的", "批判的かつ分析的な視点で、データの意味を深く考察する評論的な文体で書いてください。"),
  ("詩的", "比喩やイメージを多用し、文学的で詩的な表現を用いた文体で書いてください。"),
  ("学術的", "学術論文のような形式で、専門用語を使い、論理的に分析する文体で書いてください。"),
  ("親しみやすい", "読者に語りかけるような親しみやすい口調で、わかりやすく説明する文体で書いてください。")]

/-- `style_instructions.get(writing_style, style_instructions["標準的"])`. -/
def styleInstructionFor (w : String) : String :=
  ((style_instructions.find? fun p => p.1 = w).map Prod.snd).getD
    "客観的で読みやすい標準的な文体で書いてください。"

/-- The optional user-insights block (src/app.py lines 178-185): inserted only
when the notes are nonempty after stripping, quoting the notes verbatim. -/
def user_insights_section (user_insights : String) : String :=
  if user_insights ≠ "" && user_insights.trim ≠ "" then
    "\n\n【ユーザーの気づき・観察】\n" ++ user_insights ++
      "\n\n上記のユーザーの気づきや観察も踏まえて、考察記事に反映してください。"
  else ""

/-- The prompt of src/app.py lines 188-221 as its list of template lines; the
full prompt is these segments joined with newlines. -/
def promptSegments (stats : Stats) (writing_style user_insights : String) :
    List String := [
  "以下の年齢別書籍数の統計データを分析して、考察記事を書いてください。",
  "特に、「なぜそのような出版傾向になっているのか」という原因や背景を深く考察することが重要です。",
  "",
  "【統計データ】",
  "- 総書籍数: " ++ toString stats.total_count ++ "冊",
  "- 平均対象年齢: " ++ fmt1 stats.mean_age ++ "歳",
  "- 最小年齢: " ++ toString stats.min_age ++ "歳",
  "- 最大年齢: " ++ toString stats.max_age ++ "歳",
  "- 中央値年齢: " ++ fmt1 stats.median_age ++ "歳",
  peakLine stats.peak,
  "",
  "【年齢別書籍数（上位10位）】",
  joinNL (stats.top_ages.map ageLine),
  "",
  "【年齢帯別書籍数】",
  joinNL (stats.age_band_counts.map pairLine),
  "",
  "【年代別書籍数】",
  decadeSection stats.decade_counts ++ user_insights_section user_insights,
  "",
  "以下の構成で、800-1000文字程度の考察記事を書いてください：",
  "1. 導入（データの概要と主要な傾向）",
  "2. 年齢分布の特徴とその背景",
  "   - 特定の年齢層に書籍が集中している理由",
  "   - 社会的・文化的な背景の考察",
  "3. 年代別の傾向とその背景（データがある場合）",
  "   - 時代の変化が出版傾向に与えた影響",
  "5. 総合的な考察とまとめ",
  "   - なぜこのような出版傾向が生まれたのか",
  "   - 社会背景、市場ニーズ、文化的要因などの多角的な分析",
  "",
  "記事は読みやすく、データに基づいた具体的な分析を含めてください。",
  "特に、単に「どのような傾向があるか」を述べるだけでなく、「なぜそのような傾向になっているのか」という原因や背景を深く考察することが重要です。",
  "また、" ++ styleInstructionFor writing_style]

/-- The complete prompt string handed to the generation collaborator. -/
def build_prompt (stats : Stats) (writing_style user_insights : String) :
    String :=
  joinNL (promptSegments stats writing_style user_insights)

/-- src/app.py `generate_article_with_gemini` after an API key was found: the
prompt is built, the collaborator is called exactly once — the single call
site `model.generate_content(prompt)` is the oracle at index 0 — and a raised
`GenerationError` becomes the wrapped message of line 230. -/
def generate_article_with_gemini (stats : Stats)
    (writing_style user_insights : String)
    (gen : Nat → String → Except String String) : Option String × Option String :=
  match gen 0 (build_prompt stats writing_style user_insights) with
  | Except.ok article => (some article, none)
  | Except.error e => (none, some ("記事の生成中にエラーが発生しました: " ++ e))

theorem startsWithList_append_self (m s : List Char) :
    startsWithList m (m ++ s) = true := by
  induction m with
  | nil => rfl
  | cons c cs ih => simp [startsWithList, ih]

theorem takeWhile_run_stop (p : Char → Bool) (run : List Char) (m : Char)
    (s : List Char) (hrun : ∀ c ∈ run, p c = true) (hm : p m = false) :
    (run ++ m :: s).takeWhile p = run := by
  induction run with
  | nil => simp [List.takeWhile_cons, hm]
  | cons c cs ih =>
    have hc : p c = true := hrun c (by simp)
    simp only [List.cons_append, List.takeWhile_cons, hc, if_true]
    rw [ih fun x hx => hrun x (by simp [hx])]

theorem dropWhile_run_stop (p : Char → Bool) (run : List Char) (m : Char)
    (s : List Char) (hrun : ∀ c ∈ run, p c = true) (hm : p m = false) :
    (run ++ m :: s).dropWhile p = m :: s := by
  induction run with
  | nil => simp [List.dropWhile_cons, hm]
  | cons c cs ih =>
    have hc : p c = true := hrun c (by simp)
    simp only [List.cons_append, List.dropWhile_cons, hc, if_true]
    exact ih fun x hx => hrun x (by simp [hx])

theorem findTokenRun_append (p : Char → Bool) (mh : Char) (mt : List Char)
    (pre run s : List Char) (hmh : p mh = false)
    (hpre : ∀ c ∈ pre, p c = false) (hne : run ≠ [])
    (hrun : ∀ c ∈ run, p c = true) :
    findTokenRun p (mh :: mt) (pre ++ (run ++ mh :: (mt ++ s))) = some run := by
  induction pre with
  | nil =>
    rw [List.nil_append]
    cases run with
    | nil => exact absurd rfl hne
    | cons r rs =>
      have hr : p r = true := hrun r (by simp)
      rw [List.cons_append, findTokenRun]
      simp only [hr, if_true]
      rw [← List.cons_append r rs (mh :: (mt ++ s))]
      rw [dropWhile_run_stop p (r :: rs) mh (mt ++ s) hrun hmh]
      rw [takeWhile_run_stop p (r :: rs) mh (mt ++ s) hrun hmh]
      rw [show mh :: (mt ++ s) = (mh :: mt) ++ s from rfl]
      rw [startsWithList_append_self]
      simp
  | cons c pre ih =>
    have hc : p c = false := hpre c (by simp)
    rw [List.cons_append, findTokenRun]
    simp only [hc, Bool.false_eq_true, if_false]
    exact ih fun x hx => hpre x (by simp [hx])

theorem findTokenRun_none_of_all (p : Char → Bool) (marker l : List Char)
    (h : ∀ c ∈ l, p c = false) : findTokenRun p marker l = none := by
  induction l with
  | nil => rfl
  | cons c cs ih =>
    rw [findTokenRun]
    simp only [h c (by simp), Bool.false_eq_true, if_false]
    exact ih fun x hx => h x (by simp [hx])

theorem findTokenRun_isSome_append (p : Char → Bool) (mh : Char)
    (mt : List Char) (l1 run l2 : List Char) (hmh : p mh = false)
    (hne : run ≠ []) (hrun : ∀ c ∈ run, p c = true) :
    (findTokenRun p (mh :: mt) (l1 ++ (run ++ mh :: (mt ++ l2)))).isSome = true := by
  induction l1 with
  | nil =>
    rw [findTokenRun_append p mh mt [] run l2 hmh (by simp) hne hrun]
    rfl
  | cons c l1 ih =>
    rw [List.cons_append, findTokenRun]
    by_cases hc : p c = true
    · simp only [hc, if_true]
      split
      · rfl
      · exact ih
    · simp only [Bool.not_eq_true] at hc
      simp only [hc, Bool.false_eq_true, if_false]
      exact ih

/-- C2 counterexample: a title whose kanji token matches the pattern class but
fails numeral parsing — `is_kara_pattern` is true while `extract_age` is
absent, so the claimed equivalence fails at this input. -/
theorem is_kara_without_extract_age :
    is_kara_pattern (some "十十歳からの本") = true ∧
      extract_age (some "十十歳からの本") = none := by decide

/-- C2 (amended): `is_kara_pattern` is true iff `extract_age` is non-absent
or the only structural match is a kanji-numeral token that the numeral parser
rejects; in that residual case the pattern matches while extraction is
absent, so the claimed unconditional equivalence holds exactly outside it. -/
theorem is_kara_pattern_eq_extract_or_unparsable (title : Option String) :
    is_kara_pattern title
      = ((extract_age title).isSome || kanji_match_unparsable title) := by
  cases title with
  | none => rfl
  | some t =>
    by_cases he : t.data = []
    · simp [is_kara_pattern, extract_age, kanji_match_unparsable, he]
    · cases hd : findTokenRun isDigitChar karaMarker t.data with
      | some run =>
        simp [is_kara_pattern, extract_age, kanji_match_unparsable, he, hd]
      | none =>
        cases hk : findTokenRun isKanjiNumChar karaMarker t.data with
        | none =>
          simp [is_kara_pattern, extract_age, kanji_match_unparsable, he, hd,
            hk]
        | some run =>
          cases hn : kanji2number? run with
          | none =>
            simp [is_kara_pattern, extract_age, kanji_match_unparsable, he,
              hd, hk, hn]
          | some v =>
            simp [is_kara_pattern, extract_age, kanji_match_unparsable, he,
              hd, hk, hn]

/-- C1: every record surviving the filter-and-enrich step (pattern filter,
age attachment, and the not-null guard through which every consumer reads the
data) carries a present target age, its title matches the pattern, and the
attached age is exactly the extracted one. -/
theorem filter_and_enrich_age_present (rows : List Record)
    (e : EnrichedRecord) (he : e ∈ filter_and_enrich rows) :
    e.target_age.isSome = true ∧ is_kara_pattern e.row.title = true ∧
      e.target_age = extract_age e.row.title := by
  obtain ⟨hm, hsome⟩ := List.mem_filter.mp he
  obtain ⟨r, hr, rfl⟩ := List.mem_map.mp hm
  exact ⟨hsome, (List.mem_filter.mp hr).2, rfl⟩

/-- C1 witness: a concrete batch containing a matching title, a non-matching
title, and a structurally-matching title with unparsable numeral; the
enriched record surviving for the first title satisfies the invariant. -/
theorem filter_and_enrich_age_present_witness :
    (EnrichedRecord.mk (Record.mk (some "13歳からの哲学") none)
        (some 13)).target_age.isSome = true ∧
      is_kara_pattern (EnrichedRecord.mk
        (Record.mk (some "13歳からの哲学") none) (some 13)).row.title = true ∧
      (EnrichedRecord.mk (Record.mk (some "13歳からの哲学") none)
          (some 13)).target_age
        = extract_age (EnrichedRecord.mk
            (Record.mk (some "13歳からの哲学") none) (some 13)).row.title :=
  filter_and_enrich_age_present
    [Record.mk (some "13歳からの哲学") none, Record.mk (some "abc") none,
      Record.mk (some "十十歳からの本") none]
    (EnrichedRecord.mk (Record.mk (some "13歳からの哲学") none) (some 13))
    (by decide)

theorem extract_age_mk (cs : List Char) :
    extract_age (some (String.mk cs))
      = if cs = [] then none
        else
          match findTokenRun isDigitChar karaMarker cs with
          | some run => some (digitsToNat run)
          | none =>
            match findTokenRun isKanjiNumChar karaMarker cs with
            | some run => kanji2number? run
            | none => none := rfl

theorem is_kara_pattern_mk (cs : List Char) :
    is_kara_pattern (some (String.mk cs))
      = if cs = [] then false
        else
          ((findTokenRun isDigitChar karaMarker cs).isSome
            || (findTokenRun isKanjiNumChar karaMarker cs).isSome) := rfl

theorem extract_decade_mk (cs : List Char) :
    extract_decade (some (String.mk cs))
      = if cs = [] then none
        else
          match findFourDigitRun cs with
          | some run => some (toString (digitsToNat run / 10 * 10) ++ "年代")
          | none => none := rfl

theorem karaMarker_eq : karaMarker = '歳' :: "からの".data := by decide

theorem extract_age_digit_run (pre d s : List Char)
    (hpre : ∀ c ∈ pre, isDigitChar c = false) (hne : d ≠ [])
    (hd : ∀ c ∈ d, isDigitChar c = true) :
    extract_age (some (String.mk (pre ++ d ++ karaMarker ++ s)))
      = some (digitsToNat d) := by
  have hfind : findTokenRun isDigitChar karaMarker
      (pre ++ (d ++ '歳' :: ("からの".data ++ s))) = some d := by
    rw [karaMarker_eq]
    exact findTokenRun_append isDigitChar '歳' "からの".data pre d s (by decide)
      hpre hne hd
  rw [extract_age_mk]
  rw [show pre ++ d ++ karaMarker ++ s
      = pre ++ (d ++ '歳' :: ("からの".data ++ s)) from by
    rw [karaMarker_eq]; simp]
  rw [if_neg (by simp), hfind]

theorem extract_age_kanji_thirteen (pre s : List Char)
    (hpred : ∀ c ∈ pre, isDigitChar c = false)
    (hprek : ∀ c ∈ pre, isKanjiNumChar c = false)
    (hs : ∀ c ∈ s, isDigitChar c = false) :
    extract_age (some (String.mk (pre ++ "十三".data ++ karaMarker ++ s)))
      = some 13 := by
  have hnoneD : findTokenRun isDigitChar karaMarker
      (pre ++ "十三".data ++ karaMarker ++ s) = none := by
    apply findTokenRun_none_of_all
    intro c hc
    simp only [List.mem_append] at hc
    rcases hc with ((hc | hc) | hc) | hc
    · exact hpred c hc
    · fin_cases hc <;> decide
    · simp only [show karaMarker = ['歳', 'か', 'ら', 'の'] from by decide] at hc
      fin_cases hc <;> decide
    · exact hs c hc
  have hfindK : findTokenRun isKanjiNumChar karaMarker
      (pre ++ ("十三".data ++ '歳' :: ("からの".data ++ s)))
        = some "十三".data := by
    rw [karaMarker_eq]
    exact findTokenRun_append isKanjiNumChar '歳' "からの".data pre "十三".data
      s (by decide) hprek (by decide) (by decide)
  have hnoneD' : findTokenRun isDigitChar karaMarker
      (pre ++ ("十三".data ++ '歳' :: ("からの".data ++ s))) = none := by
    rw [show pre ++ ("十三".data ++ '歳' :: ("からの".data ++ s))
        = pre ++ "十三".data ++ karaMarker ++ s from by
      rw [karaMarker_eq]; simp]
    exact hnoneD
  rw [extract_age_mk]
  rw [show pre ++ "十三".data ++ karaMarker ++ s
      = pre ++ ("十三".data ++ '歳' :: ("からの".data ++ s)) from by
    rw [karaMarker_eq]; simp]
  rw [if_neg (by simp), hnoneD', hfindK]
  decide

theorem extract_age_digit_first (t : String) (run : List Char)
    (h : findTokenRun isDigitChar karaMarker t.data = some run) :
    extract_age (some t) = some (digitsToNat run) := by
  obtain ⟨cs⟩ := t
  have h2 : findTokenRun isDigitChar karaMarker cs = some run := h
  have hne : ¬(cs = []) := by
    intro h0
    rw [h0] at h2
    simp [findTokenRun] at h2
  rw [extract_age_mk, if_neg hne, h2]

/-- C3: a plain-digit age run right before the marker is returned exactly
(its decimal value); a kanji 十三 token before the marker yields 13; and the
digit form is tried first, its first (leftmost) match deciding the result. -/
theorem extract_age_exact_values_and_precedence :
    (∀ pre d s : List Char, (∀ c ∈ pre, isDigitChar c = false) → d ≠ [] →
      (∀ c ∈ d, isDigitChar c = true) →
      extract_age (some (String.mk (pre ++ d ++ karaMarker ++ s)))
        = some (digitsToNat d)) ∧
    (∀ pre s : List Char, (∀ c ∈ pre, isDigitChar c = false) →
      (∀ c ∈ pre, isKanjiNumChar c = false) →
      (∀ c ∈ s, isDigitChar c = false) →
      extract_age (some (String.mk (pre ++ "十三".data ++ karaMarker ++ s)))
        = some 13) ∧
    (∀ (t : String) (run : List Char),
      findTokenRun isDigitChar karaMarker t.data = some run →
      extract_age (some t) = some (digitsToNat run)) :=
  ⟨fun pre d s hpre hne hd => extract_age_digit_run pre d s hpre hne hd,
   fun pre s h1 h2 h3 => extract_age_kanji_thirteen pre s h1 h2 h3,
   fun t run h => extract_age_digit_first t run h⟩

/-- C3 witness: the spec examples — "13歳からの哲学" gives 13 through the
digit form, a 十三 title gives 13 through the numeral form, and in a title
with a later second digit match the first digit match wins. -/
theorem extract_age_exact_values_and_precedence_witness :
    extract_age (some (String.mk
        ([] ++ ['1', '3'] ++ karaMarker ++ "哲学".data)))
      = some (digitsToNat ['1', '3']) ∧
    extract_age (some (String.mk
        ([] ++ "十三".data ++ karaMarker ++ "数学".data)))
      = some 13 ∧
    extract_age (some "5歳からの12歳からの") = some (digitsToNat ['5']) :=
  ⟨extract_age_exact_values_and_precedence.1 [] ['1', '3'] "哲学".data
      (by simp) (by decide) (by decide),
   extract_age_exact_values_and_precedence.2.1 [] "数学".data (by simp)
      (by simp) (by decide),
   extract_age_exact_values_and_precedence.2.2 "5歳からの12歳からの" ['5']
      (by decide)⟩

theorem findFourDigitRun_append (pre : List Char) (a b c d : Char)
    (rest : List Char) (hpre : ∀ x ∈ pre, isDigitChar x = false)
    (ha : isDigitChar a = true) (hb : isDigitChar b = true)
    (hc : isDigitChar c = true) (hd : isDigitChar d = true) :
    findFourDigitRun (pre ++ a :: b :: c :: d :: rest) = some [a, b, c, d] := by
  induction pre with
  | nil =>
    rw [List.nil_append, findFourDigitRun]
    simp [List.take_succ_cons, List.all_cons, ha, hb, hc, hd]
  | cons x pre ih =>
    have hx : isDigitChar x = false := hpre x (by simp)
    rw [List.cons_append, findFourDigitRun]
    simp only [List.take_succ_cons, List.all_cons, hx, Bool.false_and,
      Bool.and_false, Bool.false_eq_true, if_false]
    exact ih fun y hy => hpre y (by simp [hy])

/-- C7: `extract_decade` reads the first four-consecutive-digit window as a
year and returns the `(year // 10) * 10` label with the 年代 suffix —
"1995-01-01" gives the 1990 label, "abcd" gives absent, and in
"reprint of 19999" the first four digits win; it returns absent whenever no
four-digit window exists, and is total (never raises). -/
theorem extract_decade_first_window :
    extract_decade (some "1995-01-01") = some "1990年代" ∧
    extract_decade (some "abcd") = none ∧
    extract_decade (some "reprint of 19999") = some "1990年代" ∧
    (∀ (pre : List Char) (a b c d : Char) (rest : List Char),
      (∀ x ∈ pre, isDigitChar x = false) → isDigitChar a = true →
      isDigitChar b = true → isDigitChar c = true → isDigitChar d = true →
      extract_decade (some (String.mk (pre ++ a :: b :: c :: d :: rest)))
        = some (toString (digitsToNat [a, b, c, d] / 10 * 10) ++ "年代")) ∧
    (∀ s : String, findFourDigitRun s.data = none →
      extract_decade (some s) = none) := by
  refine ⟨by decide, by decide, by decide, ?_, ?_⟩
  · intro pre a b c d rest hpre ha hb hc hd
    rw [extract_decade_mk, if_neg (by simp),
      findFourDigitRun_append pre a b c d rest hpre ha hb hc hd]
  · intro s hs
    obtain ⟨cs⟩ := s
    have hs2 : findFourDigitRun cs = none := hs
    by_cases h0 : cs = []
    · rw [extract_decade_mk, if_pos h0]
    · rw [extract_decade_mk, if_neg h0, hs2]

/-- C7 witness: the general first-window rule applied to
"reprint of 19999", and the no-window rule applied to "abcd". -/
theorem extract_decade_first_window_witness :
    extract_decade (some (String.mk
        ("reprint of ".data ++ '1' :: '9' :: '9' :: '9' :: "9".data)))
      = some (toString (digitsToNat ['1', '9', '9', '9'] / 10 * 10) ++ "年代") ∧
    extract_decade (some "abcd") = none :=
  ⟨extract_decade_first_window.2.2.2.1 "reprint of ".data '1' '9' '9' '9'
      "9".data (by decide) (by decide) (by decide) (by decide) (by decide),
   extract_decade_first_window.2.2.2.2 "abcd" (by decide)⟩

/-- C10: a title containing "0歳からの" always matches the pattern; when no
digit precedes that occurrence the extracted age is 0 — present, not absent,
so ages are nonnegative but not strictly positive — and an age-0 record falls
in the first band 0-9歳 of the aggregation. -/
theorem zero_age_matches_and_first_band :
    (∀ pre s : List Char,
      is_kara_pattern (some (String.mk (pre ++ ['0'] ++ karaMarker ++ s)))
        = true) ∧
    (∀ pre s : List Char, (∀ c ∈ pre, isDigitChar c = false) →
      extract_age (some (String.mk (pre ++ ['0'] ++ karaMarker ++ s)))
        = some 0) ∧
    ((aggregate_statistics [some 0] none).age_band_counts.getD 0 ("", 0)
      = ("0-9歳", 1)) := by
  refine ⟨?_, ?_, by decide⟩
  · intro pre s
    rw [is_kara_pattern_mk, if_neg (by simp)]
    have hsome : (findTokenRun isDigitChar karaMarker
        (pre ++ ['0'] ++ karaMarker ++ s)).isSome = true := by
      rw [show pre ++ ['0'] ++ karaMarker ++ s
          = pre ++ (['0'] ++ '歳' :: ("からの".data ++ s)) from by
        rw [karaMarker_eq]; simp, karaMarker_eq]
      exact findTokenRun_isSome_append isDigitChar '歳' "からの".data pre
        ['0'] s (by decide) (by decide) (by decide)
    rw [hsome, Bool.true_or]
  · intro pre s hpre
    have h := extract_age_digit_run pre ['0'] s hpre (by decide) (by decide)
    rw [show digitsToNat ['0'] = 0 from by decide] at h
    exact h

/-- C10 witness: the concrete title 赤ちゃん0歳からの絵本 matches and yields
age 0. -/
theorem zero_age_matches_and_first_band_witness :
    is_kara_pattern (some (String.mk
        ("赤ちゃん".data ++ ['0'] ++ karaMarker ++ "絵本".data))) = true ∧
    extract_age (some (String.mk
        ("赤ちゃん".data ++ ['0'] ++ karaMarker ++ "絵本".data))) = some 0 :=
  ⟨zero_age_matches_and_first_band.1 "赤ちゃん".data "絵本".data,
   zero_age_matches_and_first_band.2.1 "赤ちゃん".data "絵本".data
     (by decide)⟩

section CountingLemmas

variable {α : Type} [DecidableEq α]

omit [DecidableEq α] in
theorem mem_insertCountDesc (x z : α × Nat) (l : List (α × Nat)) :
    z ∈ insertCountDesc x l ↔ z = x ∨ z ∈ l := by
  induction l with
  | nil => simp [insertCountDesc]
  | cons y ys ih =>
    rw [insertCountDesc]
    by_cases hc : y.2 ≤ x.2
    · rw [if_pos hc]
      simp
    · rw [if_neg hc]
      simp [ih, or_left_comm]

omit [DecidableEq α] in
theorem sortedDesc_insertCountDesc (x : α × Nat) (l : List (α × Nat))
    (hl : l.Pairwise fun a b => b.2 ≤ a.2) :
    (insertCountDesc x l).Pairwise fun a b => b.2 ≤ a.2 := by
  induction l with
  | nil => simp [insertCountDesc]
  | cons y ys ih =>
    obtain ⟨hy, hys⟩ := List.pairwise_cons.mp hl
    rw [insertCountDesc]
    by_cases hc : y.2 ≤ x.2
    · rw [if_pos hc]
      refine List.pairwise_cons.mpr ⟨fun z hz => ?_, hl⟩
      rcases List.mem_cons.mp hz with rfl | hz
      · exact hc
      · exact le_trans (hy z hz) hc
    · rw [if_neg hc]
      refine List.pairwise_cons.mpr ⟨fun z hz => ?_, ih hys⟩
      rcases (mem_insertCountDesc x z ys).mp hz with rfl | hz
      · exact Nat.le_of_not_le hc
      · exact hy z hz

omit [DecidableEq α] in
theorem sortedDesc_sortCountDesc (l : List (α × Nat)) :
    (sortCountDesc l).Pairwise fun a b => b.2 ≤ a.2 := by
  induction l with
  | nil => simp [sortCountDesc]
  | cons x xs ih => exact sortedDesc_insertCountDesc x _ ih

omit [DecidableEq α] in
theorem filter_insertCountDesc (x : α × Nat) (l : List (α × Nat)) (c : Nat)
    (hl : l.Pairwise fun a b => b.2 ≤ a.2) :
    (insertCountDesc x l).filter (fun p => p.2 = c)
      = if x.2 = c then x :: l.filter (fun p => p.2 = c)
        else l.filter (fun p => p.2 = c) := by
  induction l with
  | nil => by_cases hx : x.2 = c <;> simp [insertCountDesc, hx]
  | cons y ys ih =>
    obtain ⟨hy, hys⟩ := List.pairwise_cons.mp hl
    rw [insertCountDesc]
    by_cases hc : y.2 ≤ x.2
    · rw [if_pos hc]
      by_cases hx : x.2 = c <;> simp [List.filter_cons, hx]
    · rw [if_neg hc]
      have hxy : x.2 < y.2 := Nat.lt_of_not_le hc
      by_cases hyc : y.2 = c
      · have hxc : ¬x.2 = c := by omega
        simp [List.filter_cons, hyc, hxc, ih hys]
      · by_cases hxc : x.2 = c <;> simp [List.filter_cons, hyc, hxc, ih hys]

omit [DecidableEq α] in
theorem filter_sortCountDesc (l : List (α × Nat)) (c : Nat) :
    (sortCountDesc l).filter (fun p => p.2 = c)
      = l.filter (fun p => p.2 = c) := by
  induction l with
  | nil => rfl
  | cons x xs ih =>
    rw [sortCountDesc,
      filter_insertCountDesc x _ c (sortedDesc_sortCountDesc xs)]
    by_cases hx : x.2 = c <;> simp [List.filter_cons, hx, ih]

theorem mem_uniquesAux (l : List α) :
    ∀ seen, ∀ a ∈ uniquesAux seen l, a ∈ l ∧ a ∉ seen := by
  induction l with
  | nil =>
    intro seen a ha
    simp [uniquesAux] at ha
  | cons x xs ih =>
    intro seen a ha
    rw [uniquesAux] at ha
    by_cases hx : x ∈ seen
    · rw [if_pos hx] at ha
      obtain ⟨h1, h2⟩ := ih seen a ha
      exact ⟨by simp [h1], h2⟩
    · rw [if_neg hx] at ha
      rcases List.mem_cons.mp ha with rfl | ha
      · exact ⟨by simp, hx⟩
      · obtain ⟨h1, h2⟩ := ih (x :: seen) a ha
        exact ⟨by simp [h1], fun hs => h2 (by simp [hs])⟩

theorem pairwise_firstIdx_uniquesAux (l : List α) :
    ∀ seen, (uniquesAux seen l).Pairwise
      fun a b => firstIdx l a < firstIdx l b := by
  induction l with
  | nil =>
    intro seen
    simp [uniquesAux]
  | cons x xs ih =>
    intro seen
    rw [uniquesAux]
    by_cases hx : x ∈ seen
    · rw [if_pos hx]
      refine List.Pairwise.imp_of_mem ?_ (ih seen)
      intro a b ha hb hab
      have hax : ¬x = a := fun h => (mem_uniquesAux xs seen a ha).2 (h ▸ hx)
      have hbx : ¬x = b := fun h => (mem_uniquesAux xs seen b hb).2 (h ▸ hx)
      show (if x = a then 0 else firstIdx xs a + 1)
          < (if x = b then 0 else firstIdx xs b + 1)
      rw [if_neg hax, if_neg hbx]
      omega
    · rw [if_neg hx]
      refine List.pairwise_cons.mpr ⟨fun b hb => ?_, ?_⟩
      · have hbx : ¬x = b := fun h =>
          (mem_uniquesAux xs (x :: seen) b hb).2 (by simp [h])
        show (if x = x then 0 else firstIdx xs x + 1)
            < (if x = b then 0 else firstIdx xs b + 1)
        rw [if_pos rfl, if_neg hbx]
        omega
      · refine List.Pairwise.imp_of_mem ?_ (ih (x :: seen))
        intro a b ha hb hab
        have hax : ¬x = a := fun h =>
          (mem_uniquesAux xs (x :: seen) a ha).2 (by simp [h])
        have hbx : ¬x = b := fun h =>
          (mem_uniquesAux xs (x :: seen) b hb).2 (by simp [h])
        show (if x = a then 0 else firstIdx xs a + 1)
            < (if x = b then 0 else firstIdx xs b + 1)
        rw [if_neg hax, if_neg hbx]
        omega

theorem map_fst_valueCountPairs (l : List α) :
    (valueCountPairs l).map Prod.fst = uniquesInOrder l := by
  rw [valueCountPairs, List.map_map,
    show (Prod.fst ∘ fun a : α => (a, l.count a)) = id from rfl, List.map_id]

end CountingLemmas

/-- C6: aggregating an empty batch does not fail and returns the well-formed
zero summary: total 0, mean, median, min and max all 0, and the peak fields
absent (top_ages is empty). -/
theorem aggregate_statistics_empty
    (decadeCol : Option (List (Option String))) :
    (aggregate_statistics [] decadeCol).total_count = 0 ∧
    (aggregate_statistics [] decadeCol).mean_age = 0 ∧
    (aggregate_statistics [] decadeCol).median_age = 0 ∧
    (aggregate_statistics [] decadeCol).min_age = 0 ∧
    (aggregate_statistics [] decadeCol).max_age = 0 ∧
    (aggregate_statistics [] decadeCol).peak = none ∧
    (aggregate_statistics [] decadeCol).top_ages = [] :=
  ⟨rfl, rfl, rfl, rfl, rfl, rfl, rfl⟩

theorem length_filterMap_id_of_all_isSome (col : List (Option Nat))
    (h : ∀ o ∈ col, o.isSome = true) :
    (col.filterMap id).length = col.length := by
  induction col with
  | nil => rfl
  | cons o t ih =>
    cases o with
    | none => exact absurd (h none (by simp)) (by simp)
    | some a =>
      have hstep : List.filterMap id (some a :: t) = a :: List.filterMap id t := by
        simp
      rw [hstep, List.length_cons, List.length_cons,
        ih fun o ho => h o (by simp [ho])]

/-- Every natural number falls in exactly one of the ten age bands. -/
theorem band_indicator_one (a : Nat) :
    ((if 0 ≤ a ∧ a < 10 then 1 else 0) : Nat)
      + (if 10 ≤ a ∧ a < 20 then 1 else 0)
      + (if 20 ≤ a ∧ a < 30 then 1 else 0)
      + (if 30 ≤ a ∧ a < 40 then 1 else 0)
      + (if 40 ≤ a ∧ a < 50 then 1 else 0)
      + (if 50 ≤ a ∧ a < 60 then 1 else 0)
      + (if 60 ≤ a ∧ a < 70 then 1 else 0)
      + (if 70 ≤ a ∧ a < 80 then 1 else 0)
      + (if 80 ≤ a ∧ a < 90 then 1 else 0)
      + (if 90 ≤ a then 1 else 0) = 1 := by
  by_cases h0 : a < 10
  · rw [if_pos (by omega)]
    iterate 9 rw [if_neg (by omega)]
  by_cases h1 : a < 20
  · rw [if_neg (by omega), if_pos (by omega)]
    iterate 8 rw [if_neg (by omega)]
  by_cases h2 : a < 30
  · iterate 2 rw [if_neg (by omega)]
    rw [if_pos (by omega)]
    iterate 7 rw [if_neg (by omega)]
  by_cases h3 : a < 40
  · iterate 3 rw [if_neg (by omega)]
    rw [if_pos (by omega)]
    iterate 6 rw [if_neg (by omega)]
  by_cases h4 : a < 50
  · iterate 4 rw [if_neg (by omega)]
    rw [if_pos (by omega)]
    iterate 5 rw [if_neg (by omega)]
  by_cases h5 : a < 60
  · iterate 5 rw [if_neg (by omega)]
    rw [if_pos (by omega)]
    iterate 4 rw [if_neg (by omega)]
  by_cases h6 : a < 70
  · iterate 6 rw [if_neg (by omega)]
    rw [if_pos (by omega)]
    iterate 3 rw [if_neg (by omega)]
  by_cases h7 : a < 80
  · iterate 7 rw [if_neg (by omega)]
    rw [if_pos (by omega)]
    iterate 2 rw [if_neg (by omega)]
  by_cases h8 : a < 90
  · iterate 8 rw [if_neg (by omega)]
    rw [if_pos (by omega)]
    rw [if_neg (by omega)]
  · iterate 9 rw [if_neg (by omega)]
    rw [if_pos (by omega)]

theorem band_counts_sum (l : List Nat) :
    ([l.countP (fun a => decide (0 ≤ a) && decide (a < 10)),
      l.countP (fun a => decide (10 ≤ a) && decide (a < 20)),
      l.countP (fun a => decide (20 ≤ a) && decide (a < 30)),
      l.countP (fun a => decide (30 ≤ a) && decide (a < 40)),
      l.countP (fun a => decide (40 ≤ a) && decide (a < 50)),
      l.countP (fun a => decide (50 ≤ a) && decide (a < 60)),
      l.countP (fun a => decide (60 ≤ a) && decide (a < 70)),
      l.countP (fun a => decide (70 ≤ a) && decide (a < 80)),
      l.countP (fun a => decide (80 ≤ a) && decide (a < 90)),
      l.countP (fun a => decide (90 ≤ a))] : List Nat).sum = l.length := by
  induction l with
  | nil => rfl
  | cons a t ih =>
    simp only [List.countP_cons, List.sum_cons, List.sum_nil,
      List.length_cons, Bool.and_eq_true, decide_eq_true_eq] at ih ⊢
    have hind := band_indicator_one a
    omega

/-- C5: when every record of the batch carries a present age, the ten band
counts sum to the total count; the bands are emitted in the fixed ascending
order whether or not they are empty; and each decade band counts exactly the
ages in `[low, low + 10)`, the last band the ages `≥ 90`. -/
theorem age_band_counts_partition (col : List (Option Nat))
    (decadeCol : Option (List (Option String)))
    (h : ∀ o ∈ col, o.isSome = true) :
    (((aggregate_statistics col decadeCol).age_band_counts.map Prod.snd).sum
        = (aggregate_statistics col decadeCol).total_count) ∧
    ((aggregate_statistics col decadeCol).age_band_counts.map Prod.fst
        = ["0-9歳", "10-19歳", "20-29歳", "30-39歳", "40-49歳", "50-59歳",
            "60-69歳", "70-79歳", "80-89歳", "90歳以上"]) ∧
    (∀ i : Nat, i < 9 →
      ((aggregate_statistics col decadeCol).age_band_counts.getD i ("", 0)).2
        = (col.filterMap id).countP
            (fun a => decide (10 * i ≤ a) && decide (a < 10 * i + 10))) ∧
    ((aggregate_statistics col decadeCol).age_band_counts.getD 9 ("", 0)).2
      = (col.filterMap id).countP (fun a => decide (90 ≤ a)) := by
  have hmap : (aggregate_statistics col decadeCol).age_band_counts.map Prod.snd
      = [(col.filterMap id).countP (fun a => decide (0 ≤ a) && decide (a < 10)),
         (col.filterMap id).countP (fun a => decide (10 ≤ a) && decide (a < 20)),
         (col.filterMap id).countP (fun a => decide (20 ≤ a) && decide (a < 30)),
         (col.filterMap id).countP (fun a => decide (30 ≤ a) && decide (a < 40)),
         (col.filterMap id).countP (fun a => decide (40 ≤ a) && decide (a < 50)),
         (col.filterMap id).countP (fun a => decide (50 ≤ a) && decide (a < 60)),
         (col.filterMap id).countP (fun a => decide (60 ≤ a) && decide (a < 70)),
         (col.filterMap id).countP (fun a => decide (70 ≤ a) && decide (a < 80)),
         (col.filterMap id).countP (fun a => decide (80 ≤ a) && decide (a < 90)),
         (col.filterMap id).countP (fun a => decide (90 ≤ a))] := rfl
  have hbands : (aggregate_statistics col decadeCol).age_band_counts
      = [("0-9歳",
          (col.filterMap id).countP (fun a => decide (0 ≤ a) && decide (a < 10))),
         ("10-19歳",
          (col.filterMap id).countP (fun a => decide (10 ≤ a) && decide (a < 20))),
         ("20-29歳",
          (col.filterMap id).countP (fun a => decide (20 ≤ a) && decide (a < 30))),
         ("30-39歳",
          (col.filterMap id).countP (fun a => decide (30 ≤ a) && decide (a < 40))),
         ("40-49歳",
          (col.filterMap id).countP (fun a => decide (40 ≤ a) && decide (a < 50))),
         ("50-59歳",
          (col.filterMap id).countP (fun a => decide (50 ≤ a) && decide (a < 60))),
         ("60-69歳",
          (col.filterMap id).countP (fun a => decide (60 ≤ a) && decide (a < 70))),
         ("70-79歳",
          (col.filterMap id).countP (fun a => decide (70 ≤ a) && decide (a < 80))),
         ("80-89歳",
          (col.filterMap id).countP (fun a => decide (80 ≤ a) && decide (a < 90))),
         ("90歳以上",
          (col.filterMap id).countP (fun a => decide (90 ≤ a)))] := rfl
  refine ⟨?_, rfl, ?_, ?_⟩
  · rw [hmap, band_counts_sum]
    exact length_filterMap_id_of_all_isSome col h
  · intro i hi
    rw [hbands]
    interval_cases i <;> rfl
  · rw [hbands]
    rfl

/-- C5 witness: the spec example batch with ages 13, 13, 15, 20. -/
theorem age_band_counts_partition_witness :
    (((aggregate_statistics [some 13, some 13, some 15, some 20]
          none).age_band_counts.map Prod.snd).sum
        = (aggregate_statistics [some 13, some 13, some 15, some 20]
            none).total_count) ∧
    ((aggregate_statistics [some 13, some 13, some 15, some 20]
        none).age_band_counts.map Prod.fst
      = ["0-9歳", "10-19歳", "20-29歳", "30-39歳", "40-49歳", "50-59歳",
          "60-69歳", "70-79歳", "80-89歳", "90歳以上"]) ∧
    (∀ i : Nat, i < 9 →
      ((aggregate_statistics [some 13, some 13, some 15, some 20]
          none).age_band_counts.getD i ("", 0)).2
        = (([some 13, some 13, some 15, some 20] : List (Option Nat)).filterMap
            id).countP
            (fun a => decide (10 * i ≤ a) && decide (a < 10 * i + 10))) ∧
    ((aggregate_statistics [some 13, some 13, some 15, some 20]
        none).age_band_counts.getD 9 ("", 0)).2
      = (([some 13, some 13, some 15, some 20] : List (Option Nat)).filterMap
          id).countP (fun a => decide (90 ≤ a)) :=
  age_band_counts_partition [some 13, some 13, some 15, some 20] none
    (by decide)

/-- C4: `top_ages` is the first ten entries of the count-descending stable
sort of the first-seen age counts: its length is at most 10, its counts are
descending (as are those of the full sorted list), sorting moves no entry
across an entry of equal count (the filter at every count value is unchanged),
and the underlying key sequence is strictly ordered by first-occurrence index
in the batch. -/
theorem top_ages_sorted_stable (col : List (Option Nat))
    (decadeCol : Option (List (Option String))) :
    (aggregate_statistics col decadeCol).top_ages.length ≤ 10 ∧
    (aggregate_statistics col decadeCol).top_ages
      = (sortCountDesc (valueCountPairs (col.filterMap id))).take 10 ∧
    ((aggregate_statistics col decadeCol).top_ages.Pairwise
      fun a b => b.2 ≤ a.2) ∧
    ((sortCountDesc (valueCountPairs (col.filterMap id))).Pairwise
      fun a b => b.2 ≤ a.2) ∧
    (∀ c : Nat,
      (sortCountDesc (valueCountPairs (col.filterMap id))).filter
          (fun p => p.2 = c)
        = (valueCountPairs (col.filterMap id)).filter (fun p => p.2 = c)) ∧
    (((valueCountPairs (col.filterMap id)).map Prod.fst).Pairwise
      fun a b =>
        firstIdx (col.filterMap id) a < firstIdx (col.filterMap id) b) := by
  refine ⟨?_, rfl, ?_, sortedDesc_sortCountDesc _,
    fun c => filter_sortCountDesc _ c, ?_⟩
  · show ((sortCountDesc (valueCountPairs (col.filterMap id))).take 10).length
        ≤ 10
    exact List.length_take_le 10 _
  · show ((sortCountDesc (valueCountPairs (col.filterMap id))).take 10).Pairwise
        fun a b => b.2 ≤ a.2
    exact List.Pairwise.sublist (List.take_sublist 10 _)
      (sortedDesc_sortCountDesc _)
  · rw [map_fst_valueCountPairs]
    exact pairwise_firstIdx_uniquesAux _ []

theorem joinNL_contains_mem (s : String) (parts : List String) (h : s ∈ parts) :
    s.data <:+: (joinNL parts).data := by
  induction parts with
  | nil => simp at h
  | cons x rest ih =>
    cases rest with
    | nil =>
      simp at h
      subst h
      exact List.infix_refl _
    | cons y t =>
      rcases List.mem_cons.mp h with rfl | h2
      · exact ⟨[], ("\n" ++ joinNL (y :: t)).data,
          by simp [joinNL, String.data_append]⟩
      · exact (ih h2).trans ⟨(x ++ "\n").data, [],
          by simp [joinNL, String.data_append]⟩

theorem contains_middle (a v b : String) : v.data <:+: (a ++ v ++ b).data :=
  ⟨a.data, b.data, by simp [String.data_append]⟩

/-- C8 (amended): the prompt contains every numeral value of the statistics
summary rendered as text — total, mean, min, max, median, the full peak line,
every top-ages line, every band line, and every decade line when decade data
is present — and prompt construction is a total operation; missing fields get
fixed fallbacks, which are zero values except the peak age, rendered as the
text N/A. -/
theorem build_prompt_contains_all_values (stats : Stats) (w u : String) :
    ((toString stats.total_count).data <:+: (build_prompt stats w u).data) ∧
    ((fmt1 stats.mean_age).data <:+: (build_prompt stats w u).data) ∧
    ((toString stats.min_age).data <:+: (build_prompt stats w u).data) ∧
    ((toString stats.max_age).data <:+: (build_prompt stats w u).data) ∧
    ((fmt1 stats.median_age).data <:+: (build_prompt stats w u).data) ∧
    ((peakLine stats.peak).data <:+: (build_prompt stats w u).data) ∧
    (∀ p ∈ stats.top_ages,
      (ageLine p).data <:+: (build_prompt stats w u).data) ∧
    (∀ p ∈ stats.age_band_counts,
      (pairLine p).data <:+: (build_prompt stats w u).data) ∧
    (∀ dcs p, stats.decade_counts = some dcs → p ∈ dcs →
      (pairLine p).data <:+: (build_prompt stats w u).data) := by
  have hseg : ∀ seg ∈ promptSegments stats w u,
      seg.data <:+: (build_prompt stats w u).data := fun seg hs =>
    joinNL_contains_mem seg _ hs
  refine ⟨?_, ?_, ?_, ?_, ?_, ?_, ?_, ?_, ?_⟩
  · exact (contains_middle "- 総書籍数: " (toString stats.total_count) "冊").trans
      (hseg _ (by simp [promptSegments]))
  · exact (contains_middle "- 平均対象年齢: " (fmt1 stats.mean_age) "歳").trans
      (hseg _ (by simp [promptSegments]))
  · exact (contains_middle "- 最小年齢: " (toString stats.min_age) "歳").trans
      (hseg _ (by simp [promptSegments]))
  · exact (contains_middle "- 最大年齢: " (toString stats.max_age) "歳").trans
      (hseg _ (by simp [promptSegments]))
  · exact (contains_middle "- 中央値年齢: " (fmt1 stats.median_age) "歳").trans
      (hseg _ (by simp [promptSegments]))
  · exact hseg _ (by simp [promptSegments])
  · intro p hp
    exact (joinNL_contains_mem (ageLine p) (stats.top_ages.map ageLine)
        (List.mem_map_of_mem ageLine hp)).trans
      (hseg _ (by simp [promptSegments]))
  · intro p hp
    exact (joinNL_contains_mem (pairLine p) (stats.age_band_counts.map pairLine)
        (List.mem_map_of_mem pairLine hp)).trans
      (hseg _ (by simp [promptSegments]))
  · intro dcs p hdcs hp
    cases dcs with
    | nil => simp at hp
    | cons q qs =>
      have h1 : (pairLine p).data <:+: (decadeSection stats.decade_counts).data := by
        rw [hdcs]
        exact joinNL_contains_mem (pairLine p) ((q :: qs).map pairLine)
          (List.mem_map_of_mem pairLine hp)
      have h2 : (decadeSection stats.decade_counts).data
          <:+: (decadeSection stats.decade_counts
            ++ user_insights_section u).data :=
        ⟨[], (user_insights_section u).data, by simp [String.data_append]⟩
      exact (h1.trans h2).trans (hseg _ (by simp [promptSegments]))

/-- C8 counterexample: when the peak fields are missing (as for an empty
top-ages list), the prompt renders the peak age with the text fallback N/A,
not with a zero value — the peak line differs from the zero-rendered line the
claim asserts. -/
theorem peak_line_na_not_zero :
    peakLine (aggregate_statistics [] none).peak
        = "- ピーク年齢: N/A歳（書籍数: 0冊）" ∧
      peakLine (aggregate_statistics [] none).peak
        ≠ "- ピーク年齢: 0歳（書籍数: 0冊）" := by
  constructor
  · decide
  · decide

/-- C8 witness: a concrete summary with a tied peak, one top-ages entry, one
band entry and one decade entry; every rendered value is contained in the
built prompt. -/
theorem build_prompt_contains_all_values_witness :
    ((toString (Stats.mk 4 15 13 20 14 [(13, 2)] (some (13, 2))
          (some [("1990年代", 3)]) [("0-9歳", 0)]).total_count).data
        <:+: (build_prompt (Stats.mk 4 15 13 20 14 [(13, 2)] (some (13, 2))
          (some [("1990年代", 3)]) [("0-9歳", 0)]) "標準的" "").data) ∧
    ((ageLine (13, 2)).data
        <:+: (build_prompt (Stats.mk 4 15 13 20 14 [(13, 2)] (some (13, 2))
          (some [("1990年代", 3)]) [("0-9歳", 0)]) "標準的" "").data) ∧
    ((pairLine ("0-9歳", 0)).data
        <:+: (build_prompt (Stats.mk 4 15 13 20 14 [(13, 2)] (some (13, 2))
          (some [("1990年代", 3)]) [("0-9歳", 0)]) "標準的" "").data) ∧
    ((pairLine ("1990年代", 3)).data
        <:+: (build_prompt (Stats.mk 4 15 13 20 14 [(13, 2)] (some (13, 2))
          (some [("1990年代", 3)]) [("0-9歳", 0)]) "標準的" "").data) :=
  ⟨(build_prompt_contains_all_values _ "標準的" "").1,
   (build_prompt_contains_all_values _ "標準的" "").2.2.2.2.2.2.1 (13, 2)
     (by simp),
   (build_prompt_contains_all_values _ "標準的" "").2.2.2.2.2.2.2.1
     ("0-9歳", 0) (by simp),
   (build_prompt_contains_all_values _ "標準的" "").2.2.2.2.2.2.2.2
     [("1990年代", 3)] ("1990年代", 3) rfl (by simp)⟩

/-- C9 counterexample: the error text handed back to the caller is not the
collaborator's message itself — the handler of line 230 prepends a fixed
wrapper, so the returned text differs from the raised message. -/
theorem generate_article_error_not_verbatim :
    (generate_article_with_gemini (aggregate_statistics [] none) "標準的" ""
        (fun _ _ => Except.error "boom")).2
      = some ("記事の生成中にエラーが発生しました: boom") ∧
    (generate_article_with_gemini (aggregate_statistics [] none) "標準的" ""
        (fun _ _ => Except.error "boom")).2 ≠ some "boom" := by
  constructor
  · rfl
  · decide

/-- C9 (amended): on collaborator failure the caller receives no article and
an error text equal to the fixed wrapper followed by the collaborator's
message unmodified (the message is surfaced embedded, not verbatim); and the
result depends only on the outcome of the single call at index 0, so no
internal retry is made. -/
theorem generate_article_error_wrapped_no_retry :
    (∀ (stats : Stats) (w u msg : String)
        (gen : Nat → String → Except String String),
      gen 0 (build_prompt stats w u) = Except.error msg →
      generate_article_with_gemini stats w u gen
        = (none, some ("記事の生成中にエラーが発生しました: " ++ msg))) ∧
    (∀ (stats : Stats) (w u : String)
        (gen gen2 : Nat → String → Except String String),
      (∀ p, gen 0 p = gen2 0 p) →
      generate_article_with_gemini stats w u gen
        = generate_article_with_gemini stats w u gen2) := by
  constructor
  · intro stats w u msg gen hg
    unfold generate_article_with_gemini
    rw [hg]
  · intro stats w u gen gen2 hg
    unfold generate_article_with_gemini
    rw [hg]

/-- C9 witness: a failing collaborator call produces exactly the wrapped
message, and replacing the oracle beyond index 0 (where a retry would look)
does not change the result. -/
theorem generate_article_error_wrapped_no_retry_witness :
    (generate_article_with_gemini (aggregate_statistics [] none) "標準的" ""
        (fun _ _ => Except.error "外部エラー")
      = (none, some ("記事の生成中にエラーが発生しました: " ++ "外部エラー"))) ∧
    (generate_article_with_gemini (aggregate_statistics [] none) "標準的" ""
        (fun _ _ => Except.ok "記事")
      = generate_article_with_gemini (aggregate_statistics [] none) "標準的"
          "" (fun i _ => if i = 0 then Except.ok "記事"
            else Except.error "再試行")) :=
  ⟨generate_article_error_wrapped_no_retry.1 (aggregate_statistics [] none)
      "標準的" "" "外部エラー" (fun _ _ => Except.error "外部エラー") rfl,
   generate_article_error_wrapped_no_retry.2 (aggregate_statistics [] none)
      "標準的" "" (fun _ _ => Except.ok "記事")
      (fun i _ => if i = 0 then Except.ok "記事" else Except.error "再試行")
      (fun p => by simp)⟩
